import Mathlib

/-!
Verification of the API-gateway core of the `nestjs-boilerplate` repository:
shallow embeddings of the circuit breaker, rate limiter, load balancer,
route store (path matching, creation, update) and the dispatcher's
forwarding/health logic, together with theorems settling the spec claims.

Machine integers are modelled as `Nat`/`Int`; timestamps (`Date.now()`,
Redis clock) are explicit `Int` parameters; every effectful method is
embedded as an explicit state-passing function returning `Except` for the
thrown-exception path.
-/

namespace Gateway

/-- Errors mirroring the Nest exceptions thrown by the gateway core. -/
inductive GatewayError where
  | Unavailable
  | RouteNotFound
  | TooManyRequests
  | AlreadyExists
  | CastErr
  deriving DecidableEq, Repr

/-! ## Circuit breaker (`circuit-breaker.service.ts`) -/

inductive CBStatus where
  | CLOSED
  | OPEN
  | HALF_OPEN
  deriving DecidableEq, Repr

/-- `CircuitBreakerState`: `failures`, `lastFailure` (a `Date | null`,
modelled as an optional epoch-millisecond timestamp) and `status`. -/
structure CBState where
  failures : Nat
  lastFailure : Option Int
  status : CBStatus
  deriving DecidableEq, Repr

/-- The lazily-created default state: `failures: 0, lastFailure: null, status: CLOSED`. -/
def initialCBState : CBState :=
  { failures := 0, lastFailure := none, status := CBStatus.CLOSED }

/-- Configuration: `CIRCUIT_BREAKER_FAILURE_THRESHOLD` (default 5) and
`CIRCUIT_BREAKER_RESET_TIMEOUT` in milliseconds (default 60000). -/
structure CBConfig where
  failureThreshold : Nat
  resetTimeout : Int
  deriving DecidableEq, Repr

def defaultCBConfig : CBConfig :=
  { failureThreshold := 5, resetTimeout := 60000 }

/-- `shouldAttemptReset`: false when `lastFailure` is null, otherwise
`Date.now() - lastFailure.getTime() >= resetTimeout`. -/
def shouldAttemptReset (cfg : CBConfig) (now : Int) (s : CBState) : Bool :=
  match s.lastFailure with
  | none => false
  | some t => decide (cfg.resetTimeout ≤ now - t)

/-- `checkService`: in OPEN, either lazily transitions to HALF_OPEN (when the
reset timeout has elapsed) or throws `ServiceUnavailableException`; in
HALF_OPEN and CLOSED it passes without modifying the state. -/
def checkService (cfg : CBConfig) (now : Int) (s : CBState) :
    Except GatewayError Unit × CBState :=
  match s.status with
  | CBStatus.OPEN =>
      if shouldAttemptReset cfg now s then
        (Except.ok (), { s with status := CBStatus.HALF_OPEN })
      else
        (Except.error GatewayError.Unavailable, s)
  | CBStatus.HALF_OPEN => (Except.ok (), s)
  | CBStatus.CLOSED => (Except.ok (), s)

/-- `recordSuccess`: resets the state to the default only when HALF_OPEN. -/
def recordSuccess (s : CBState) : CBState :=
  if s.status = CBStatus.HALF_OPEN then initialCBState else s

/-- `recordError`: increments `failures`, stamps `lastFailure = now`, and
opens the breaker when the incremented count reaches the threshold. -/
def recordError (cfg : CBConfig) (now : Int) (s : CBState) : CBState :=
  let s1 := { s with failures := s.failures + 1, lastFailure := some now }
  if cfg.failureThreshold ≤ s1.failures then
    { s1 with status := CBStatus.OPEN }
  else
    s1

/-- Folding `recordError` over a list of failure timestamps. -/
def recordErrors (cfg : CBConfig) (times : List Int) (s : CBState) : CBState :=
  times.foldl (fun st t => recordError cfg t st) s

/-- One interleaving step for the breaker: a recorded error at a timestamp,
or a recorded success. -/
inductive CBOp where
  | err (t : Int)
  | succ
  deriving DecidableEq, Repr

def runCBOps (cfg : CBConfig) (ops : List CBOp) (s : CBState) : CBState :=
  ops.foldl
    (fun st op =>
      match op with
      | CBOp.err t => recordError cfg t st
      | CBOp.succ => recordSuccess st)
    s

/-- Number of `recordError` calls in an op sequence. -/
def cbErrCount (ops : List CBOp) : Nat :=
  ops.countP (fun op => match op with | CBOp.err _ => true | CBOp.succ => false)

theorem recordError_failures (cfg : CBConfig) (t : Int) (s : CBState) :
    (recordError cfg t s).failures = s.failures + 1 := by
  unfold recordError
  by_cases h : cfg.failureThreshold ≤ s.failures + 1 <;> simp [h]

theorem recordErrors_failures (cfg : CBConfig) (ts : List Int) (s : CBState) :
    (recordErrors cfg ts s).failures = s.failures + ts.length := by
  induction ts generalizing s with
  | nil => simp [recordErrors]
  | cons t ts ih =>
      have h := ih (recordError cfg t s)
      simp only [recordErrors, List.foldl_cons]
      simp only [recordErrors] at h
      rw [h, recordError_failures, List.length_cons]
      omega

theorem recordErrors_append_single (cfg : CBConfig) (ts : List Int) (t : Int)
    (s : CBState) :
    recordErrors cfg (ts ++ [t]) s = recordError cfg t (recordErrors cfg ts s) := by
  simp [recordErrors, List.foldl_append]

/-- C1: starting from the default CLOSED state, exactly `failureThreshold`
`recordError` calls (at timestamps `ts ++ [tLast]`) leave the breaker OPEN
with `failures = failureThreshold` and `lastFailure = tLast`; while
`now - tLast < resetTimeout`, `checkService` throws `Unavailable` and leaves
the state unchanged; once `resetTimeout ≤ now - tLast`, `checkService`
succeeds and moves the breaker to HALF_OPEN, after which `recordSuccess`
restores the default state (CLOSED, zero failures, cleared timestamp). -/
theorem circuit_breaker_lifecycle (cfg : CBConfig) (ts : List Int) (tLast : Int)
    (sOpen : CBState) (now1 now2 : Int)
    (hlen : ts.length + 1 = cfg.failureThreshold)
    (hs : sOpen = recordErrors cfg (ts ++ [tLast]) initialCBState)
    (h1 : now1 - tLast < cfg.resetTimeout)
    (h2 : cfg.resetTimeout ≤ now2 - tLast) :
    sOpen.status = CBStatus.OPEN ∧
    sOpen.failures = cfg.failureThreshold ∧
    sOpen.lastFailure = some tLast ∧
    checkService cfg now1 sOpen = (Except.error GatewayError.Unavailable, sOpen) ∧
    checkService cfg now2 sOpen =
      (Except.ok (), { sOpen with status := CBStatus.HALF_OPEN }) ∧
    recordSuccess { sOpen with status := CBStatus.HALF_OPEN } = initialCBState := by
  have hfail : (recordErrors cfg ts initialCBState).failures = ts.length := by
    rw [recordErrors_failures]
    simp [initialCBState]
  have hopen : sOpen =
      { failures := cfg.failureThreshold, lastFailure := some tLast,
        status := CBStatus.OPEN } := by
    rw [hs, recordErrors_append_single]
    unfold recordError
    simp only [hfail]
    rw [if_pos (by omega)]
    simp only [hlen]
  subst hopen
  refine ⟨rfl, rfl, rfl, ?_, ?_, ?_⟩
  · unfold checkService shouldAttemptReset
    simp only
    rw [if_neg (by simp; omega)]
  · unfold checkService shouldAttemptReset
    simp only
    rw [if_pos (by simp; omega)]
  · unfold recordSuccess
    simp [initialCBState]

theorem circuit_breaker_lifecycle_witness :
    ([0, 0, 0, 0] : List Int).length + 1 = defaultCBConfig.failureThreshold ∧
    (recordErrors defaultCBConfig ([0, 0, 0, 0] ++ [10]) initialCBState =
      recordErrors defaultCBConfig ([0, 0, 0, 0] ++ [10]) initialCBState) ∧
    ((1000 : Int) - 10 < defaultCBConfig.resetTimeout) ∧
    (defaultCBConfig.resetTimeout ≤ (70000 : Int) - 10) ∧
    ((recordErrors defaultCBConfig ([0, 0, 0, 0] ++ [10]) initialCBState).status =
      CBStatus.OPEN ∧
    (recordErrors defaultCBConfig ([0, 0, 0, 0] ++ [10]) initialCBState).failures =
      defaultCBConfig.failureThreshold ∧
    (recordErrors defaultCBConfig ([0, 0, 0, 0] ++ [10]) initialCBState).lastFailure =
      some 10 ∧
    checkService defaultCBConfig 1000
        (recordErrors defaultCBConfig ([0, 0, 0, 0] ++ [10]) initialCBState) =
      (Except.error GatewayError.Unavailable,
        recordErrors defaultCBConfig ([0, 0, 0, 0] ++ [10]) initialCBState) ∧
    checkService defaultCBConfig 70000
        (recordErrors defaultCBConfig ([0, 0, 0, 0] ++ [10]) initialCBState) =
      (Except.ok (),
        { recordErrors defaultCBConfig ([0, 0, 0, 0] ++ [10]) initialCBState with
            status := CBStatus.HALF_OPEN }) ∧
    recordSuccess
        { recordErrors defaultCBConfig ([0, 0, 0, 0] ++ [10]) initialCBState with
            status := CBStatus.HALF_OPEN } = initialCBState) :=
  ⟨by decide, rfl, by decide, by decide,
    circuit_breaker_lifecycle defaultCBConfig [0, 0, 0, 0] 10
      (recordErrors defaultCBConfig ([0, 0, 0, 0] ++ [10]) initialCBState)
      1000 70000 (by decide) rfl (by decide) (by decide)⟩

theorem runCBOps_closed_open_invariant (cfg : CBConfig)
    (hthr : 1 ≤ cfg.failureThreshold) (ops : List CBOp) :
    ∀ (n : Nat) (s : CBState), s.failures = n →
      s.status = (if cfg.failureThreshold ≤ n then CBStatus.OPEN else CBStatus.CLOSED) →
      (runCBOps cfg ops s).failures = n + cbErrCount ops ∧
      (runCBOps cfg ops s).status =
        (if cfg.failureThreshold ≤ n + cbErrCount ops then CBStatus.OPEN
         else CBStatus.CLOSED) := by
  induction ops with
  | nil =>
      intro n s hf hst
      simp [runCBOps, cbErrCount, hf, hst]
  | cons op ops ih =>
      intro n s hf hst
      cases op with
      | err t =>
          have hstep : runCBOps cfg (CBOp.err t :: ops) s =
              runCBOps cfg ops (recordError cfg t s) := by
            simp [runCBOps]
          have hf1 : (recordError cfg t s).failures = n + 1 := by
            rw [recordError_failures, hf]
          have hst1 : (recordError cfg t s).status =
              (if cfg.failureThreshold ≤ n + 1 then CBStatus.OPEN
               else CBStatus.CLOSED) := by
            unfold recordError
            by_cases h : cfg.failureThreshold ≤ s.failures + 1
            · rw [if_pos h]
              simp only [hf] at h
              simp [if_pos h]
            · rw [if_neg h]
              simp only [hf] at h
              simp only [if_neg h, hst]
              rw [if_neg (by omega)]
          have := ih (n + 1) (recordError cfg t s) hf1 hst1
          rw [hstep]
          refine ⟨?_, ?_⟩
          · rw [this.1]
            simp [cbErrCount, List.countP_cons]
            omega
          · rw [this.2]
            have hcnt : n + 1 + cbErrCount ops = n + cbErrCount (CBOp.err t :: ops) := by
              simp [cbErrCount, List.countP_cons]
              omega
            rw [hcnt]
      | succ =>
          have hnoop : recordSuccess s = s := by
            unfold recordSuccess
            rw [if_neg]
            rw [hst]
            by_cases h : cfg.failureThreshold ≤ n <;> simp [h]
          have hstep : runCBOps cfg (CBOp.succ :: ops) s =
              runCBOps cfg ops s := by
            simp [runCBOps, hnoop]
          have := ih n s hf hst
          rw [hstep]
          have hcnt : cbErrCount (CBOp.succ :: ops) = cbErrCount ops := by
            simp [cbErrCount, List.countP_cons]
          rw [hcnt]
          exact this

/-- C9: `recordSuccess` is a no-op unless the breaker is HALF_OPEN, so
successes recorded while CLOSED never reset `failures`; consequently, for
any interleaving of `recordError` and `recordSuccess` calls starting from
the default state, `failureThreshold` total errors open the breaker. -/
theorem recordSuccess_frame (cfg : CBConfig) (s : CBState) (ops : List CBOp)
    (hs : s.status ≠ CBStatus.HALF_OPEN)
    (hthr : 1 ≤ cfg.failureThreshold)
    (hcount : cbErrCount ops = cfg.failureThreshold) :
    recordSuccess s = s ∧
    (runCBOps cfg ops initialCBState).failures = cfg.failureThreshold ∧
    (runCBOps cfg ops initialCBState).status = CBStatus.OPEN := by
  refine ⟨by unfold recordSuccess; rw [if_neg hs], ?_, ?_⟩
  · have := runCBOps_closed_open_invariant cfg hthr ops 0 initialCBState rfl
      (by rw [if_neg (by omega)]; rfl)
    rw [this.1, hcount]
    omega
  · have := runCBOps_closed_open_invariant cfg hthr ops 0 initialCBState rfl
      (by rw [if_neg (by omega)]; rfl)
    rw [this.2, hcount]
    rw [if_pos (by omega)]

theorem recordSuccess_frame_witness :
    (initialCBState.status ≠ CBStatus.HALF_OPEN) ∧
    (1 ≤ defaultCBConfig.failureThreshold) ∧
    (cbErrCount [CBOp.err 1, CBOp.succ, CBOp.err 2, CBOp.succ, CBOp.err 3,
        CBOp.err 4, CBOp.succ, CBOp.err 5] = defaultCBConfig.failureThreshold) ∧
    (recordSuccess initialCBState = initialCBState ∧
    (runCBOps defaultCBConfig [CBOp.err 1, CBOp.succ, CBOp.err 2, CBOp.succ,
        CBOp.err 3, CBOp.err 4, CBOp.succ, CBOp.err 5]
        initialCBState).failures = defaultCBConfig.failureThreshold ∧
    (runCBOps defaultCBConfig [CBOp.err 1, CBOp.succ, CBOp.err 2, CBOp.succ,
        CBOp.err 3, CBOp.err 4, CBOp.succ, CBOp.err 5]
        initialCBState).status = CBStatus.OPEN) :=
  ⟨by decide, by decide, by decide,
    recordSuccess_frame defaultCBConfig initialCBState
      [CBOp.err 1, CBOp.succ, CBOp.err 2, CBOp.succ, CBOp.err 3, CBOp.err 4,
        CBOp.succ, CBOp.err 5]
      (by decide) (by decide) (by decide)⟩

/-! ## Rate limiter (`rate-limiter.service.ts`)

The Redis-backed fixed-window counter: one key per client, value `count`,
with an optional absolute expiry timestamp (set by `EXPIRE` on the first
increment of a window; Redis drops the key once the expiry is reached). -/

structure RLConfig where
  points : Nat
  duration : Int
  deriving DecidableEq, Repr

/-- One Redis rate-limit key: `none` when absent, otherwise the counter
value together with its optional absolute expiry time (seconds). -/
def RLKey : Type := Option (Nat × Option Int)

instance : DecidableEq RLKey := by unfold RLKey; infer_instance

/-- Redis expiry semantics: a key whose expiry time has been reached is
gone by the time any command observes it. -/
def liveEntry (now : Int) (st : RLKey) : RLKey :=
  match st with
  | some (c, some e) => if e ≤ now then none else some (c, some e)
  | st0 => st0

/-- `checkLimit`: `INCR` the key (a missing or expired key restarts at 1),
set the expiry to `duration` from now when this was the first increment of
the window, then reject with 429 iff the post-increment count exceeds
`points` (increment-then-check: the rejected request is itself counted). -/
def checkLimit (cfg : RLConfig) (now : Int) (st : RLKey) :
    Except GatewayError Unit × RLKey :=
  let st0 := liveEntry now st
  let currentCount := match st0 with | some (c, _) => c + 1 | none => 1
  let ttl := match st0 with | some (_, e) => e | none => none
  let st1 : RLKey :=
    if currentCount = 1 then some (currentCount, some (now + cfg.duration))
    else some (currentCount, ttl)
  if cfg.points < currentCount then (Except.error GatewayError.TooManyRequests, st1)
  else (Except.ok (), st1)

/-- Successive `checkLimit` calls for one key at the given timestamps. -/
def runLimiter (cfg : RLConfig) :
    List Int → RLKey → List (Except GatewayError Unit) × RLKey
  | [], st => ([], st)
  | t :: ts, st =>
      let r := checkLimit cfg t st
      let rest := runLimiter cfg ts r.2
      (r.1 :: rest.1, rest.2)

theorem checkLimit_live (cfg : RLConfig) (now : Int) (c : Nat) (e : Int)
    (hc : 1 ≤ c) (hnow : now < e) :
    checkLimit cfg now (some (c, some e)) =
      (if cfg.points < c + 1 then Except.error GatewayError.TooManyRequests
       else Except.ok (), some (c + 1, some e)) := by
  have hne : ¬ e ≤ now := by omega
  have hcc : ¬ (c + 1 = 1) := by omega
  simp only [checkLimit, liveEntry, hne, if_false, hcc, if_true, ite_false]
  by_cases h : cfg.points < c + 1 <;> simp [h]

theorem runLimiter_ok_of_le (cfg : RLConfig) (ts : List Int) :
    ∀ (c : Nat) (e : Int), (∀ t ∈ ts, t < e) → 1 ≤ c →
      c + ts.length ≤ cfg.points →
      runLimiter cfg ts (some (c, some e)) =
        (List.replicate ts.length (Except.ok ()), some (c + ts.length, some e)) := by
  induction ts with
  | nil => intro c e _ _ _; simp [runLimiter]
  | cons t ts ih =>
      intro c e hw hc hle
      have hstep := checkLimit_live cfg t c e hc (hw t (by simp))
      have hok : ¬ cfg.points < c + 1 := by
        simp only [List.length_cons] at hle
        omega
      rw [if_neg hok] at hstep
      have hrest := ih (c + 1) e (fun t ht => hw t (by simp [ht])) (by omega)
        (by simp only [List.length_cons] at hle; omega)
      simp only [runLimiter, hstep, hrest, List.length_cons, List.replicate_succ]
      have harith : c + 1 + ts.length = c + (ts.length + 1) := by omega
      rw [harith]

/-- C2: for a window of cap `points = ts.length + 1` and length `duration`,
the first `points` calls within the window all succeed; the next call inside
the window is rejected with 429 and is itself counted (the stored counter
becomes `points + 1`, increment-then-check); and the first call at or after
the window's expiry starts a fresh window and succeeds. -/
theorem rate_limiter_window (cfg : RLConfig) (t0 : Int) (ts : List Int)
    (tReject tNew : Int)
    (hp : ts.length + 1 = cfg.points)
    (hw : ∀ t ∈ ts, t < t0 + cfg.duration)
    (hr : tReject < t0 + cfg.duration)
    (hn : t0 + cfg.duration ≤ tNew) :
    (runLimiter cfg (t0 :: ts) none).1 =
      List.replicate cfg.points (Except.ok ()) ∧
    (runLimiter cfg (t0 :: ts) none).2 =
      some (cfg.points, some (t0 + cfg.duration)) ∧
    checkLimit cfg tReject (some (cfg.points, some (t0 + cfg.duration))) =
      (Except.error GatewayError.TooManyRequests,
        some (cfg.points + 1, some (t0 + cfg.duration))) ∧
    checkLimit cfg tNew (some (cfg.points + 1, some (t0 + cfg.duration))) =
      (Except.ok (), some (1, some (tNew + cfg.duration))) := by
  have hfirst : checkLimit cfg t0 none =
      (Except.ok (), some (1, some (t0 + cfg.duration))) := by
    have h1 : ¬ cfg.points < 1 := by omega
    simp [checkLimit, liveEntry, h1]
  have hrun := runLimiter_ok_of_le cfg ts 1 (t0 + cfg.duration) hw (by omega)
    (by omega)
  have hfull : runLimiter cfg (t0 :: ts) none =
      (Except.ok () :: List.replicate ts.length (Except.ok ()),
        some (1 + ts.length, some (t0 + cfg.duration))) := by
    simp only [runLimiter, hfirst, hrun]
  refine ⟨?_, ?_, ?_, ?_⟩
  · rw [hfull]
    simp only
    rw [← List.replicate_succ]
    have : ts.length + 1 = cfg.points := hp
    rw [this]
  · rw [hfull]
    simp only
    have : 1 + ts.length = cfg.points := by omega
    rw [this]
  · have := checkLimit_live cfg tReject cfg.points (t0 + cfg.duration)
      (by omega) hr
    rw [this, if_pos (by omega)]
  · have h1 : ¬ cfg.points < 1 := by omega
    simp [checkLimit, liveEntry, hn, h1]

theorem rate_limiter_window_witness :
    (([1] : List Int).length + 1 = (RLConfig.mk 2 5).points) ∧
    (∀ t ∈ ([1] : List Int), t < (0 : Int) + (RLConfig.mk 2 5).duration) ∧
    ((2 : Int) < (0 : Int) + (RLConfig.mk 2 5).duration) ∧
    ((0 : Int) + (RLConfig.mk 2 5).duration ≤ (5 : Int)) ∧
    ((runLimiter (RLConfig.mk 2 5) ([0, 1] : List Int) none).1 =
        List.replicate (RLConfig.mk 2 5).points (Except.ok ()) ∧
      (runLimiter (RLConfig.mk 2 5) ([0, 1] : List Int) none).2 =
        some ((RLConfig.mk 2 5).points, some ((0 : Int) + (RLConfig.mk 2 5).duration)) ∧
      checkLimit (RLConfig.mk 2 5) 2
          (some ((RLConfig.mk 2 5).points, some ((0 : Int) + (RLConfig.mk 2 5).duration))) =
        (Except.error GatewayError.TooManyRequests,
          some ((RLConfig.mk 2 5).points + 1,
            some ((0 : Int) + (RLConfig.mk 2 5).duration))) ∧
      checkLimit (RLConfig.mk 2 5) 5
          (some ((RLConfig.mk 2 5).points + 1,
            some ((0 : Int) + (RLConfig.mk 2 5).duration))) =
        (Except.ok (), some (1, some ((5 : Int) + (RLConfig.mk 2 5).duration)))) :=
  ⟨by decide, by decide, by decide, by decide,
    rate_limiter_window (RLConfig.mk 2 5) 0 [1] 2 5
      (by decide) (by decide) (by decide) (by decide)⟩

/-! ## Load balancer (`load-balancer.service.ts`)

Per-service cursor `{ index, urls }`; `getServiceInstance` always refreshes
the url list from the route service (passed here as the `urls` argument,
the claim's stability assumption making it constant across calls). -/

structure LBState where
  index : Nat
  urls : List String
  deriving DecidableEq, Repr

/-- The JS `endpoints?.index || 0` read of the previous cursor. -/
def lbCurrentIndex (st : Option LBState) : Nat :=
  match st with
  | some s => s.index
  | none => 0

/-- `getServiceInstance` for one service: read the previous cursor (`0` when
absent), refresh the endpoint list, fail `Unavailable` on an empty list,
otherwise clamp the cursor modulo the new length, return that endpoint and
advance the cursor modulo the length. -/
def getServiceInstance (urls : List String) (st : Option LBState) :
    Except GatewayError String × Option LBState :=
  let currentIndex := lbCurrentIndex st
  if urls.length = 0 then (Except.error GatewayError.Unavailable, st)
  else
    let i := currentIndex % urls.length
    (Except.ok (urls.getD i ""),
      some { index := (i + 1) % urls.length, urls := urls })

/-- Cursor state after `n` successive calls for a stable endpoint list,
starting with no cursor. -/
def lbIter (urls : List String) : Nat → Option LBState
  | 0 => none
  | n + 1 => (getServiceInstance urls (lbIter urls n)).2

theorem lbIter_eq (urls : List String) (hk : urls.length ≠ 0) (n : Nat) :
    lbIter urls (n + 1) = some { index := (n + 1) % urls.length, urls := urls } := by
  induction n with
  | zero =>
      simp only [lbIter, getServiceInstance]
      rw [if_neg hk]
      simp [lbCurrentIndex]
  | succ n ih =>
      simp only [lbIter] at ih ⊢
      rw [ih]
      simp only [getServiceInstance, lbCurrentIndex]
      rw [if_neg hk]
      simp only
      have hmm : (n + 1) % urls.length % urls.length = (n + 1) % urls.length :=
        Nat.mod_mod_of_dvd _ (dvd_refl _)
      have hadd : ((n + 1) % urls.length + 1) % urls.length =
          (n + 1 + 1) % urls.length :=
        (Nat.mod_modEq (n + 1) urls.length).add_right 1
      rw [hmm, hadd]

/-- C3: for a stable nonempty endpoint list, the `n`-th call (counting from
0) returns `urls[n % k]` — strict cyclic round robin — and each single call
preserves the previous cursor modulo the current list length, returns the
endpoint at that position and advances the cursor modulo the length. -/
theorem load_balancer_round_robin (urls : List String) (n : Nat)
    (st : Option LBState) (hk : urls.length ≠ 0) :
    (getServiceInstance urls (lbIter urls n)).1 =
      Except.ok (urls.getD (n % urls.length) "") ∧
    lbIter urls (n + 1) = some { index := (n + 1) % urls.length, urls := urls } ∧
    getServiceInstance urls st =
      (Except.ok (urls.getD (lbCurrentIndex st % urls.length) ""),
        some { index := (lbCurrentIndex st % urls.length + 1) % urls.length, urls := urls }) := by
  refine ⟨?_, lbIter_eq urls hk n, ?_⟩
  · cases n with
    | zero =>
        simp only [lbIter, getServiceInstance, lbCurrentIndex]
        rw [if_neg hk]
    | succ m =>
        rw [lbIter_eq urls hk m]
        simp only [getServiceInstance, lbCurrentIndex]
        rw [if_neg hk]
        have hmm : (m + 1) % urls.length % urls.length = (m + 1) % urls.length :=
          Nat.mod_mod_of_dvd _ (dvd_refl _)
        rw [hmm]
  · simp only [getServiceInstance]
    rw [if_neg hk]

theorem load_balancer_round_robin_witness :
    ((["a", "b", "c"] : List String).length ≠ 0) ∧
    ((getServiceInstance ["a", "b", "c"] (lbIter ["a", "b", "c"] 4)).1 =
        Except.ok ((["a", "b", "c"] : List String).getD (4 % 3) "") ∧
      lbIter ["a", "b", "c"] 5 = some { index := 5 % 3, urls := ["a", "b", "c"] } ∧
      getServiceInstance ["a", "b", "c"] (some { index := 7, urls := ["x"] }) =
        (Except.ok ((["a", "b", "c"] : List String).getD (7 % 3) ""),
          some { index := (7 % 3 + 1) % 3, urls := ["a", "b", "c"] })) :=
  ⟨by decide,
    load_balancer_round_robin ["a", "b", "c"] 4
      (some { index := 7, urls := ["x"] }) (by decide)⟩

/-! ## Route path matching (`route.service.ts`, `matchPath`)

`matchPath` escapes `/`, compiles `*` to `[^/]*`, anchors the result as
`^pattern($|\/)` and tests the path.  `goMatch` is that regex's
backtracking semantics on character lists: literal pattern characters match
themselves, `*` matches zero or more non-`/` characters, and after the
pattern is consumed the boundary must be end-of-string or a `/`.  The
`fuel` argument only bounds the recursion; `patternChars.length +
pathChars.length` steps always suffice. -/

def goMatch : Nat → List Char → List Char → Bool
  | _, [], s =>
      match s with
      | [] => true
      | c :: _ => c = '/'
  | 0, _ :: _, _ => false
  | fuel + 1, p :: ps, s =>
      if p = '*' then
        goMatch fuel ps s ||
          (match s with
           | [] => false
           | d :: s1 => decide (d ≠ '/') && goMatch fuel (p :: ps) s1)
      else
        match s with
        | [] => false
        | d :: s1 => d = p && goMatch fuel ps s1

/-- `matchPath(path, pattern)` from `RouteService`. -/
def matchPath (path pattern : String) : Bool :=
  goMatch (pattern.data.length + path.data.length) pattern.data path.data

/-- C4: the wildcard pattern `/test/*` matches `/test/123` and `/test/` but
neither `/testing` nor `/other`; the wildcard-free pattern `/test` matches
`/test` exactly and `/test/sub` as a `/`-bounded prefix, but not
`/testing`. -/
theorem route_path_matching :
    matchPath "/test/123" "/test/*" = true ∧
    matchPath "/test/" "/test/*" = true ∧
    matchPath "/testing" "/test/*" = false ∧
    matchPath "/other" "/test/*" = false ∧
    matchPath "/test" "/test" = true ∧
    matchPath "/test/sub" "/test" = true ∧
    matchPath "/testing" "/test" = false := by
  decide

/-! ## Dispatcher forwarding (`gateway.service.ts`)

`forwardRequest` rewrites the path by stripping the first segment
(`request.path.replace(/^\/[^\/]+/, '')`), performs the upstream call
(modelled by an `Upstream` outcome), throws `ServiceUnavailableException`
for non-200 health responses, 404/5xx statuses and all transport failures,
and otherwise returns `{ status, headers, data }`.  The `handleRequest`
forwarding step records the outcome on the circuit breaker. -/

/-- JS `path.replace(/^\/[^\/]+/, '')`: drop a leading `/` plus one or more
following non-`/` characters when present, otherwise leave the path as is. -/
def stripFirstSegment (p : String) : String :=
  match p.data with
  | '/' :: c :: rest =>
      if c = '/' then p
      else String.mk ((c :: rest).dropWhile (fun d => decide (d ≠ '/')))
  | _ => p

/-- JS `String.prototype.endsWith`. -/
def strEndsWith (s suffix : String) : Bool :=
  suffix.data.isSuffixOf s.data

/-- Outcome of the axios call: a transport-level failure (connection
refused, timeout, ...) or an HTTP response (any status is delivered, since
`validateStatus: null`). -/
inductive Upstream where
  | transportFailure
  | response (status : Nat) (headers : List (String × String)) (body : String)
  deriving DecidableEq, Repr

structure GwResponse where
  status : Nat
  headers : List (String × String)
  data : String
  deriving DecidableEq, Repr

def forwardRequest (reqPath : String) (u : Upstream) :
    Except GatewayError GwResponse :=
  let path := stripFirstSegment reqPath
  match u with
  | Upstream.transportFailure => Except.error GatewayError.Unavailable
  | Upstream.response status headers body =>
      if strEndsWith path "/health" && decide (status ≠ 200) then
        Except.error GatewayError.Unavailable
      else if status = 404 || decide (500 ≤ status) then
        Except.error GatewayError.Unavailable
      else
        Except.ok { status := status, headers := headers, data := body }

/-- `handleRequest` lines 66–75: forward, record success on the breaker and
return the response, or record an error and throw `Unavailable`. -/
def forwardAndRecord (cfg : CBConfig) (now : Int) (reqPath : String)
    (u : Upstream) (cb : CBState) :
    Except GatewayError GwResponse × CBState :=
  match forwardRequest reqPath u with
  | Except.ok resp => (Except.ok resp, recordSuccess cb)
  | Except.error _ => (Except.error GatewayError.Unavailable, recordError cfg now cb)

/-- C5: for a request whose rewritten path does not end in `/health`, a
transport failure or an upstream 404/5xx response becomes `Unavailable` and
records a breaker failure, while any other 2xx–499 (non-404) response is
passed through with its original status, headers and body and records a
breaker success. -/
theorem dispatcher_forward_classification (cfg : CBConfig) (now : Int)
    (reqPath : String) (cb : CBState)
    (hp : strEndsWith (stripFirstSegment reqPath) "/health" = false) :
    forwardAndRecord cfg now reqPath Upstream.transportFailure cb =
      (Except.error GatewayError.Unavailable, recordError cfg now cb) ∧
    (∀ (st : Nat) (hs : List (String × String)) (b : String),
      st = 404 ∨ 500 ≤ st →
      forwardAndRecord cfg now reqPath (Upstream.response st hs b) cb =
        (Except.error GatewayError.Unavailable, recordError cfg now cb)) ∧
    (∀ (st : Nat) (hs : List (String × String)) (b : String),
      200 ≤ st → st ≤ 499 → st ≠ 404 →
      forwardAndRecord cfg now reqPath (Upstream.response st hs b) cb =
        (Except.ok { status := st, headers := hs, data := b }, recordSuccess cb)) := by
  refine ⟨rfl, ?_, ?_⟩
  · intro st hs b hbad
    have h404 : (st = 404 || decide (500 ≤ st)) = true := by
      rcases hbad with h | h <;> simp [h]
    simp [forwardAndRecord, forwardRequest, hp, h404]
  · intro st hs b h2 h4 hne
    have hok : (st = 404 || decide (500 ≤ st)) = false := by
      simp only [Bool.or_eq_false_iff, decide_eq_false_iff_not]
      exact ⟨by simp [hne], by omega⟩
    simp [forwardAndRecord, forwardRequest, hp, hok]

theorem dispatcher_forward_classification_witness :
    (strEndsWith (stripFirstSegment "/svc/ping") "/health" = false) ∧
    (forwardAndRecord defaultCBConfig 0 "/svc/ping" Upstream.transportFailure
        initialCBState =
      (Except.error GatewayError.Unavailable,
        recordError defaultCBConfig 0 initialCBState) ∧
    (∀ (st : Nat) (hs : List (String × String)) (b : String),
      st = 404 ∨ 500 ≤ st →
      forwardAndRecord defaultCBConfig 0 "/svc/ping" (Upstream.response st hs b)
          initialCBState =
        (Except.error GatewayError.Unavailable,
          recordError defaultCBConfig 0 initialCBState)) ∧
    (∀ (st : Nat) (hs : List (String × String)) (b : String),
      200 ≤ st → st ≤ 499 → st ≠ 404 →
      forwardAndRecord defaultCBConfig 0 "/svc/ping" (Upstream.response st hs b)
          initialCBState =
        (Except.ok { status := st, headers := hs, data := b },
          recordSuccess initialCBState))) :=
  ⟨by decide,
    dispatcher_forward_classification defaultCBConfig 0 "/svc/ping"
      initialCBState (by decide)⟩

/-- C10: on a rewritten path ending in `/health`, every upstream status
other than exactly 200 — 204, 3xx, 4xx alike — is converted to
`Unavailable`, strictly stricter than the general 404-or-5xx rule. -/
theorem health_path_strict (reqPath : String) (st : Nat)
    (hs : List (String × String)) (b : String)
    (hpath : strEndsWith (stripFirstSegment reqPath) "/health" = true)
    (hst : st ≠ 200) :
    forwardRequest reqPath (Upstream.response st hs b) =
      Except.error GatewayError.Unavailable := by
  simp [forwardRequest, hpath, hst]

theorem health_path_strict_witness :
    (strEndsWith (stripFirstSegment "/svc/health") "/health" = true) ∧
    ((204 : Nat) ≠ 200) ∧
    forwardRequest "/svc/health" (Upstream.response 204 [] "") =
      Except.error GatewayError.Unavailable :=
  ⟨by decide, by decide,
    health_path_strict "/svc/health" 204 [] "" (by decide) (by decide)⟩

/-! ## Route store (`route.service.ts`)

`createRoute` in strict mode probes every active candidate endpoint's
`/health` (available iff it answers with exactly HTTP 200), throws
`ServiceUnavailableException` when none is available, and only then
persists; `getRoutes` refreshes the in-memory index from the durable store
(ACTIVE routes only).  The route documents live in `db : List RouteDoc`. -/

inductive ServiceStatus where
  | ACTIVE
  | INACTIVE
  | MAINTENANCE
  deriving DecidableEq, Repr

structure ServiceEndpoint where
  url : String
  weight : Nat
  isActive : Bool
  deriving DecidableEq, Repr

structure RouteDoc where
  serviceId : String
  name : String
  pathPattern : String
  endpoints : List ServiceEndpoint
  status : ServiceStatus
  version : Nat
  deriving DecidableEq, Repr

structure CreateRouteDto where
  serviceId : String
  name : String
  pathPattern : String
  endpoints : List ServiceEndpoint
  status : ServiceStatus
  deriving DecidableEq, Repr

/-- A health probe of one endpoint url: `none` when the request throws,
otherwise the HTTP status; `createRoute` counts the endpoint available iff
the status is exactly 200. -/
def probeOk (health : String → Option Nat) (url : String) : Bool :=
  match health url with
  | some 200 => true
  | _ => false

/-- `createRoute`: duplicate check, test-mode blocklist, liveness probe of
the active candidate endpoints (including the source's misalignment: the
probe results are indexed by position in the *filtered* list but read back
by position in the *unfiltered* list), and persistence. -/
def createRoute (isTestMode : Bool) (testUnavailable : List String)
    (health : String → Option Nat) (db : List RouteDoc) (dto : CreateRouteDto) :
    Except GatewayError RouteDoc × List RouteDoc :=
  if db.any (fun r => r.serviceId = dto.serviceId) then
    (Except.error GatewayError.AlreadyExists, db)
  else if isTestMode && testUnavailable.contains dto.serviceId then
    (Except.error GatewayError.Unavailable, db)
  else
    let availableEndpoints :=
      (dto.endpoints.filter (fun e => e.isActive)).map (fun e => probeOk health e.url)
    if !(availableEndpoints.any (fun b => b)) then
      (Except.error GatewayError.Unavailable, db)
    else
      let newEndpoints := dto.endpoints.mapIdx
        (fun i e => { e with isActive := e.isActive && availableEndpoints.getD i false })
      if (newEndpoints.filter (fun e => e.isActive)).length = 0 then
        (Except.error GatewayError.Unavailable, db)
      else
        let route : RouteDoc :=
          { serviceId := dto.serviceId, name := dto.name, pathPattern := dto.pathPattern, endpoints := newEndpoints, status := dto.status, version := 1 }
        (Except.ok route, db ++ [route])

/-- `getRoutes` after its `loadRoutes` refresh: the ACTIVE documents of the
durable store. -/
def getRoutes (db : List RouteDoc) : List RouteDoc :=
  db.filter (fun r => r.status = ServiceStatus.ACTIVE)

/-- C6: in strict mode, when no active candidate endpoint answers its
`/health` probe with 200, `createRoute` fails with `Unavailable`, the
durable store is unchanged, and the serviceId does not appear in subsequent
`getRoutes` results. -/
theorem create_route_strict_unavailable (isTestMode : Bool)
    (testUnavailable : List String) (health : String → Option Nat)
    (db : List RouteDoc) (dto : CreateRouteDto)
    (hfresh : db.any (fun r => r.serviceId = dto.serviceId) = false)
    (hdead : ∀ e ∈ dto.endpoints, e.isActive = true → probeOk health e.url = false) :
    createRoute isTestMode testUnavailable health db dto =
      (Except.error GatewayError.Unavailable, db) ∧
    getRoutes (createRoute isTestMode testUnavailable health db dto).2 =
      getRoutes db ∧
    dto.serviceId ∉
      (getRoutes (createRoute isTestMode testUnavailable health db dto).2).map
        (fun r => r.serviceId) := by
  have hav :
      ((dto.endpoints.filter (fun e => e.isActive)).map
        (fun e => probeOk health e.url)).any (fun b => b) = false := by
    rw [List.any_eq_false]
    intro b hb
    obtain ⟨e, he, rfl⟩ := List.mem_map.mp hb
    have hmem := List.mem_filter.mp he
    have := hdead e hmem.1 (by simpa using hmem.2)
    simp [this]
  have hmain : createRoute isTestMode testUnavailable health db dto =
      (Except.error GatewayError.Unavailable, db) := by
    unfold createRoute
    rw [if_neg (by simp [hfresh])]
    by_cases htm : (isTestMode && testUnavailable.contains dto.serviceId) = true
    · rw [if_pos htm]
    · rw [if_neg htm]
      rw [if_pos (by simp [hav])]
  refine ⟨hmain, by rw [hmain], ?_⟩
  rw [hmain]
  simp only [getRoutes, List.mem_map]
  rintro ⟨r, hr, hid⟩
  have hrdb := (List.mem_filter.mp hr).1
  have hall := List.any_eq_false.mp hfresh r hrdb
  simp [hid] at hall

theorem create_route_strict_unavailable_witness :
    (([] : List RouteDoc).any
        (fun r => r.serviceId = (CreateRouteDto.mk "svc-b" "B" "/b/*" [ServiceEndpoint.mk "http://b1:9000" 1 true] ServiceStatus.ACTIVE).serviceId) = false) ∧
    (∀ e ∈ (CreateRouteDto.mk "svc-b" "B" "/b/*" [ServiceEndpoint.mk "http://b1:9000" 1 true] ServiceStatus.ACTIVE).endpoints,
      e.isActive = true → probeOk (fun _ => none) e.url = false) ∧
    (createRoute false [] (fun _ => none) []
        (CreateRouteDto.mk "svc-b" "B" "/b/*" [ServiceEndpoint.mk "http://b1:9000" 1 true] ServiceStatus.ACTIVE) =
      (Except.error GatewayError.Unavailable, ([] : List RouteDoc)) ∧
    getRoutes (createRoute false [] (fun _ => none) []
        (CreateRouteDto.mk "svc-b" "B" "/b/*" [ServiceEndpoint.mk "http://b1:9000" 1 true] ServiceStatus.ACTIVE)).2 =
      getRoutes ([] : List RouteDoc) ∧
    (CreateRouteDto.mk "svc-b" "B" "/b/*" [ServiceEndpoint.mk "http://b1:9000" 1 true] ServiceStatus.ACTIVE).serviceId ∉
      (getRoutes (createRoute false [] (fun _ => none) []
          (CreateRouteDto.mk "svc-b" "B" "/b/*" [ServiceEndpoint.mk "http://b1:9000" 1 true] ServiceStatus.ACTIVE)).2).map
        (fun r => r.serviceId)) :=
  ⟨rfl, by decide,
    create_route_strict_unavailable false [] (fun _ => none) []
      (CreateRouteDto.mk "svc-b" "B" "/b/*" [ServiceEndpoint.mk "http://b1:9000" 1 true] ServiceStatus.ACTIVE)
      rfl (by decide)⟩

/-! ### `updateRoute` and the malformed `version` update

`updateRoute` calls `findOneAndUpdate({ serviceId }, { ...dto,
version: { $inc: 1 }, updatedAt }, { new: true })`.  The object
`{ $inc: 1 }` appears as the *value* assigned to the `version` field (the
update document has no top-level operator, so Mongoose wraps it in `$set`),
not as a top-level `$inc` operator.  Casting that object to the numeric
`version` schema path fails, so the driver rejects every update with a
`CastError` before touching the store. -/

/-- A value appearing in the `$set` document for the numeric `version`
path: either a number, or the `{ $inc: n }` object literal that the source
passes. -/
inductive VersionFieldVal where
  | num (n : Nat)
  | incDoc (n : Nat)
  deriving DecidableEq, Repr

/-- The value the source assigns to `version` inside the update document:
`version: { $inc: 1 }`. -/
def versionUpdateVal : VersionFieldVal := VersionFieldVal.incDoc 1

/-- Mongoose's cast of a `$set` value to a `Number` schema path. -/
def castToNumber : VersionFieldVal → Option Nat
  | VersionFieldVal.num n => some n
  | VersionFieldVal.incDoc _ => none

structure UpdateRouteDto where
  name : Option String
  pathPattern : Option String
  endpoints : Option (List ServiceEndpoint)
  status : Option ServiceStatus
  deriving DecidableEq, Repr

/-- `$set` of the patch fields plus the cast `version` value onto a stored
route document. -/
def applyPatch (r : RouteDoc) (dto : UpdateRouteDto) (newVersion : Nat) : RouteDoc :=
  { r with
      name := dto.name.getD r.name
      pathPattern := dto.pathPattern.getD r.pathPattern
      endpoints := dto.endpoints.getD r.endpoints
      status := dto.status.getD r.status
      version := newVersion }

/-- `updateRoute`: Mongoose first casts the update document (rejecting the
whole call when the `version` value cannot be cast to a number), then
matches on `serviceId` (a missing route surfaces as `NotFoundException`)
and applies the `$set`. -/
def updateRoute (db : List RouteDoc) (serviceId : String) (dto : UpdateRouteDto) :
    Except GatewayError RouteDoc × List RouteDoc :=
  match castToNumber versionUpdateVal with
  | none => (Except.error GatewayError.CastErr, db)
  | some v =>
      match db.find? (fun r => r.serviceId = serviceId) with
      | none => (Except.error GatewayError.RouteNotFound, db)
      | some r =>
          let r1 := applyPatch r dto v
          (Except.ok r1, db.map (fun x => if x.serviceId = serviceId then r1 else x))

/-- C7 (code bug): because `version: { $inc: 1 }` puts the `$inc` operator
in value position, every `updateRoute` call is rejected with a cast error
and leaves the store unchanged — no update ever merges the patch or
increments `version` by 1, and a missing route is never reported as
`NotFound`. -/
theorem update_route_version_cast_failure (db : List RouteDoc)
    (serviceId : String) (dto : UpdateRouteDto) :
    updateRoute db serviceId dto = (Except.error GatewayError.CastErr, db) := by
  rfl

/-! ## Health monitor (`health-monitor.service.ts`)

`handleHealthAlerts` walks one tick's per-service health entries
(`serviceId`, `status` string): an `'unhealthy'` entry increments that
service's consecutive-failure counter (a JS `Map`, modelled as
`String → Option Nat`) and sends one alert when the incremented counter has
reached `alertThreshold`; any other status deletes the counter.  The first
component of the result collects the serviceIds alerted this tick, in
order. -/

def alertThreshold : Nat := 3

/-- The loop body of `handleHealthAlerts` for one `[serviceId, serviceHealth]`
entry, acting on the (alerts-so-far, failure-map) accumulator. -/
def hhaStep (acc : List String × (String → Option Nat)) :
    String × String → List String × (String → Option Nat)
  | (sid, st) =>
    if st = "unhealthy" then
      let failures := (acc.2 sid).getD 0 + 1
      let m1 : String → Option Nat := fun k => if k = sid then some failures else acc.2 k
      if alertThreshold ≤ failures then (acc.1 ++ [sid], m1) else (acc.1, m1)
    else
      (acc.1, fun k => if k = sid then none else acc.2 k)

/-- One `handleHealthAlerts` tick over the entries of `health.services`. -/
def handleHealthAlerts (m : String → Option Nat)
    (entries : List (String × String)) : List String × (String → Option Nat) :=
  entries.foldl hhaStep ([], m)

theorem hhaStep_untouched (acc : List String × (String → Option Nat))
    (k st sid : String) (hne : k ≠ sid) :
    (hhaStep acc (k, st)).2 sid = acc.2 sid ∧
    (hhaStep acc (k, st)).1.count sid = acc.1.count sid := by
  simp only [hhaStep]
  by_cases hu : st = "unhealthy"
  · rw [if_pos hu]
    by_cases ht : alertThreshold ≤ (acc.2 k).getD 0 + 1
    · rw [if_pos ht]
      constructor
      · simp [Ne.symm hne]
      · simp [List.count_append, Ne.symm hne, hne]
    · rw [if_neg ht]
      exact ⟨by simp [Ne.symm hne], rfl⟩
  · rw [if_neg hu]
    exact ⟨by simp [Ne.symm hne], rfl⟩

theorem hha_foldl_untouched (sid : String) (entries : List (String × String))
    (h : ∀ e ∈ entries, e.1 ≠ sid) :
    ∀ acc : List String × (String → Option Nat),
      (entries.foldl hhaStep acc).2 sid = acc.2 sid ∧
      (entries.foldl hhaStep acc).1.count sid = acc.1.count sid := by
  induction entries with
  | nil => intro acc; exact ⟨rfl, rfl⟩
  | cons e es ih =>
      intro acc
      obtain ⟨k, st⟩ := e
      have hstep := hhaStep_untouched acc k st sid (h (k, st) (by simp))
      have hrest := ih (fun x hx => h x (by simp [hx])) (hhaStep acc (k, st))
      simp only [List.foldl_cons]
      exact ⟨hrest.1.trans hstep.1, hrest.2.trans hstep.2⟩

/-- C8: on a tick whose entries mention `sid` exactly once, an `'unhealthy'`
report raises the consecutive-failure counter by one and emits exactly one
alert for `sid` iff the raised counter has reached the threshold (and none
below it); any other report resets the counter to zero and emits no alert
— so the alert repeats on every tick at/above the threshold, not just
once. -/
theorem health_monitor_alerts (m : String → Option Nat) (sid status : String)
    (pre post : List (String × String))
    (hpre : ∀ e ∈ pre, e.1 ≠ sid) (hpost : ∀ e ∈ post, e.1 ≠ sid) :
    (status = "unhealthy" →
      ((handleHealthAlerts m (pre ++ (sid, status) :: post)).2 sid).getD 0 =
        (m sid).getD 0 + 1 ∧
      (handleHealthAlerts m (pre ++ (sid, status) :: post)).1.count sid =
        (if alertThreshold ≤ (m sid).getD 0 + 1 then 1 else 0)) ∧
    (status ≠ "unhealthy" →
      ((handleHealthAlerts m (pre ++ (sid, status) :: post)).2 sid).getD 0 = 0 ∧
      (handleHealthAlerts m (pre ++ (sid, status) :: post)).1.count sid = 0) := by
  have hsplit : handleHealthAlerts m (pre ++ (sid, status) :: post) =
      post.foldl hhaStep (hhaStep (pre.foldl hhaStep ([], m)) (sid, status)) := by
    simp [handleHealthAlerts, List.foldl_append]
  have hpreacc := hha_foldl_untouched sid pre hpre ([], m)
  have hpostacc := hha_foldl_untouched sid post hpost
    (hhaStep (pre.foldl hhaStep ([], m)) (sid, status))
  constructor
  · intro hu
    have hmid2 : (hhaStep (pre.foldl hhaStep ([], m)) (sid, status)).2 sid =
        some ((m sid).getD 0 + 1) := by
      simp only [hhaStep]
      rw [if_pos hu]
      by_cases ht : alertThreshold ≤ ((pre.foldl hhaStep ([], m)).2 sid).getD 0 + 1
      · rw [if_pos ht]
        simp [hpreacc.1]
      · rw [if_neg ht]
        simp [hpreacc.1]
    have hmid1 : (hhaStep (pre.foldl hhaStep ([], m)) (sid, status)).1.count sid =
        (if alertThreshold ≤ (m sid).getD 0 + 1 then 1 else 0) := by
      simp only [hhaStep]
      rw [if_pos hu]
      by_cases ht : alertThreshold ≤ (m sid).getD 0 + 1
      · rw [if_pos (by rw [hpreacc.1]; exact ht)]
        simp [List.count_append, hpreacc.2, ht]
      · rw [if_neg (by rw [hpreacc.1]; exact ht)]
        simp [hpreacc.2, ht]
    rw [hsplit]
    exact ⟨by rw [hpostacc.1, hmid2]; rfl, by rw [hpostacc.2, hmid1]⟩
  · intro hu
    have hmid2 : (hhaStep (pre.foldl hhaStep ([], m)) (sid, status)).2 sid = none := by
      simp only [hhaStep]
      rw [if_neg hu]
      simp
    have hmid1 : (hhaStep (pre.foldl hhaStep ([], m)) (sid, status)).1.count sid = 0 := by
      simp only [hhaStep]
      rw [if_neg hu]
      simp [hpreacc.2]
    rw [hsplit]
    exact ⟨by rw [hpostacc.1, hmid2]; rfl, by rw [hpostacc.2, hmid1]⟩

theorem health_monitor_alerts_witness :
    (∀ e ∈ ([("gateway", "up")] : List (String × String)), e.1 ≠ "svc-a") ∧
    (∀ e ∈ ([("svc-b", "healthy")] : List (String × String)), e.1 ≠ "svc-a") ∧
    ((("unhealthy" : String) = "unhealthy" →
      ((handleHealthAlerts (fun sid => if sid = "svc-a" then some 2 else none)
          ([("gateway", "up")] ++ ("svc-a", "unhealthy") :: [("svc-b", "healthy")])).2
          "svc-a").getD 0 =
        ((fun sid => if sid = "svc-a" then some 2 else none) "svc-a").getD 0 + 1 ∧
      (handleHealthAlerts (fun sid => if sid = "svc-a" then some 2 else none)
          ([("gateway", "up")] ++ ("svc-a", "unhealthy") :: [("svc-b", "healthy")])).1.count
          "svc-a" =
        (if alertThreshold ≤
            ((fun sid => if sid = "svc-a" then some 2 else none) "svc-a").getD 0 + 1
         then 1 else 0)) ∧
    (("unhealthy" : String) ≠ "unhealthy" →
      ((handleHealthAlerts (fun sid => if sid = "svc-a" then some 2 else none)
          ([("gateway", "up")] ++ ("svc-a", "unhealthy") :: [("svc-b", "healthy")])).2
          "svc-a").getD 0 = 0 ∧
      (handleHealthAlerts (fun sid => if sid = "svc-a" then some 2 else none)
          ([("gateway", "up")] ++ ("svc-a", "unhealthy") :: [("svc-b", "healthy")])).1.count
          "svc-a" = 0)) :=
  ⟨by decide, by decide,
    health_monitor_alerts (fun sid => if sid = "svc-a" then some 2 else none)
      "svc-a" "unhealthy" [("gateway", "up")] [("svc-b", "healthy")]
      (by decide) (by decide)⟩

end Gateway
